import Mathlib

/-!
Shallow embedding of the environmental evaluation and control-decision engine
of the greenhouse analysis module (`ai_analysis.py`): the optimality-score and
status model, the statistical anomaly detector, the average-data overall score,
and the control-command generator with its learned-predictor magnitude fusion.
Machine floats are modelled as exact rationals.
-/

namespace FarmUi

-- ===== Definitions =====

/-- The four sensor channels handled by `ai_analysis.py`. -/
inductive Channel where
  | humidity
  | temperature
  | light
  | soilMoisture
  deriving DecidableEq

/-- `np.mean` over a list of rationals.  Callers guard non-emptiness exactly
where the source does; on `[]` the rational division by zero yields `0`. -/
def mean (l : List ℚ) : ℚ := l.sum / l.length

/-- `_calculate_optimal_score` (ai_analysis.py lines 215-240), translated
branch for branch; `0.4 = 2/5`, `0.6 = 3/5`, `0.2 = 1/5`, `0.5 = 1/2`. -/
def calcOptimalScore (value optMin optMax accMin accMax : ℚ) : ℚ :=
  if optMax ≤ optMin then 1/2
  else if optMin ≤ value ∧ value ≤ optMax then 1
  else if accMin ≤ value ∧ value < optMin then
    max (3/5) (1 - ((optMin - value) / (optMax - optMin)) * (2/5))
  else if optMax < value ∧ value ≤ accMax then
    max (3/5) (1 - ((value - optMax) / (optMax - optMin)) * (2/5))
  else
    max (1/5)
      (3/5 - ((if value < accMin then accMin - value else value - accMax)
        / (optMax - optMin)) * (2/5))

/-- `_determine_status` (ai_analysis.py lines 242-252); the four status
strings are the source's literals (최적 = optimal, 양호 = acceptable,
주의 = warning, 위험 = critical). -/
def determineStatus (value optMin optMax accMin accMax critMin critMax : ℚ) : String :=
  if optMin ≤ value ∧ value ≤ optMax then "최적"
  else if accMin ≤ value ∧ value ≤ accMax then "양호"
  else if (critMin ≤ value ∧ value < accMin) ∨ (accMax < value ∧ value ≤ critMax) then "주의"
  else "위험"

/-- Distance from a value to the optimal band `[optMin, optMax]`
(0 inside the band). -/
def distToOptimal (value optMin optMax : ℚ) : ℚ :=
  max 0 (max (optMin - value) (value - optMax))

/-- Per-channel threshold entry as stored in the crop table
(`crop_config.py`): each bound may be absent, mirroring the per-field
`dict.get(key, default)` reads of the source (the defaults differ between
call sites and are applied there). -/
structure BandSpec where
  optimalMin : Option ℚ
  optimalMax : Option ℚ
  acceptableMin : Option ℚ
  acceptableMax : Option ℚ
  criticalMin : Option ℚ
  criticalMax : Option ℚ
  deriving DecidableEq

/-- A fully resolved six-bound band. -/
structure ResolvedBand where
  optMin : ℚ
  optMax : ℚ
  accMin : ℚ
  accMax : ℚ
  critMin : ℚ
  critMax : ℚ
  deriving DecidableEq

/-- Anomaly severity: 중간 = medium, 높음 = high. -/
inductive Severity where
  | medium
  | high
  deriving DecidableEq

/-- Tag for the anomaly reason; abstracts the formatted message strings of
ai_analysis.py lines 446-470, which carry no decision logic. -/
inductive AnomalyReason where
  | criticalLow
  | criticalHigh
  | acceptableLow
  | acceptableHigh
  | optimalLow
  | optimalHigh
  | statisticalOutlier
  deriving DecidableEq

/-- One flagged anomaly (timestamp and message string not modelled). -/
structure Anomaly where
  value : ℚ
  sampleMean : ℚ
  sampleVariance : ℚ
  anomalyType : String
  severity : Severity
  reason : AnomalyReason
  deriving DecidableEq

/-- Population variance (the square of `np.std`).  The source compares the
float z-score `|v - mean| / std` against nonnegative thresholds; every such
comparison is embedded as the exactly equivalent squared comparison
`(v - mean)^2 > threshold^2 * variance` (valid since `std = sqrt variance`
and the thresholds in play are nonnegative). -/
def popVariance (l : List ℚ) : ℚ := ((l.map fun v => (v - mean l) ^ 2).sum) / l.length

/-- Band bounds used by `_detect_sensor_anomalies_with_optimal`
(lines 403, 420-425): `conditions.get(sensor_type, {})` followed by per-field
defaults optimal 0/100, acceptable 0/100, critical -10/110. -/
def analysisBand (spec : Option BandSpec) : ResolvedBand :=
  match spec with
  | none => ⟨0, 100, 0, 100, -10, 110⟩
  | some b => ⟨b.optimalMin.getD 0, b.optimalMax.getD 100, b.acceptableMin.getD 0,
      b.acceptableMax.getD 100, b.criticalMin.getD (-10), b.criticalMax.getD 110⟩

/-- Loop body of `_detect_sensor_anomalies_with_optimal` (lines 429-490) for
one valid reading `v`: rule selection in source order, the low/high direction
label (낮음/높음), and the `z > 2 * threshold` severity upgrade.  All
z-score comparisons are squared (see `popVariance`). -/
def classifyReading (v m variance t : ℚ) (b : ResolvedBand) : Option Anomaly :=
  let flagged : Option (Severity × AnomalyReason) :=
    if v < b.critMin ∨ v > b.critMax then
      some (Severity.high,
        if v < b.critMin then AnomalyReason.criticalLow else AnomalyReason.criticalHigh)
    else if v < b.accMin ∨ v > b.accMax then
      some (Severity.high,
        if v < b.accMin then AnomalyReason.acceptableLow else AnomalyReason.acceptableHigh)
    else if v < b.optMin ∨ v > b.optMax then
      if (v - m) ^ 2 > t ^ 2 * variance then
        some (Severity.medium,
          if v < b.optMin then AnomalyReason.optimalLow else AnomalyReason.optimalHigh)
      else none
    else if (v - m) ^ 2 > (t * (3/2)) ^ 2 * variance then
      some (Severity.medium, AnomalyReason.statisticalOutlier)
    else none
  match flagged with
  | none => none
  | some (sev, why) =>
    some ⟨v, m, variance,
      if v < b.optMin then "낮음" else "높음",
      if (v - m) ^ 2 > (t * 2) ^ 2 * variance then Severity.high else sev,
      why⟩

/-- `_detect_sensor_anomalies_with_optimal` (lines 397-492): drop missing
values; report nothing when fewer than 3 valid values remain or the standard
deviation is zero (equivalently, the variance is zero); otherwise classify
each valid reading in order. -/
def detectSensorAnomalies (values : List (Option ℚ)) (spec : Option BandSpec) (t : ℚ) :
    List Anomaly :=
  if (values.filterMap id).length < 3 then []
  else if popVariance (values.filterMap id) = 0 then []
  else
    (values.filterMap id).filterMap fun v =>
      classifyReading v (mean (values.filterMap id)) (popVariance (values.filterMap id)) t
        (analysisBand spec)

/-- One sensor sample of `analyze_average_data`: each channel optional. -/
structure SensorSample where
  humidity : Option ℚ
  temperature : Option ℚ
  light : Option ℚ
  soilMoisture : Option ℚ
  deriving DecidableEq

def sampleField (c : Channel) (s : SensorSample) : Option ℚ :=
  match c with
  | Channel.humidity => s.humidity
  | Channel.temperature => s.temperature
  | Channel.light => s.light
  | Channel.soilMoisture => s.soilMoisture

/-- Per-channel value collection of `analyze_average_data` (lines 99-107). -/
def channelValues (data : List SensorSample) (c : Channel) : List ℚ :=
  data.filterMap (sampleField c)

/-- Band bounds passed to `_calculate_optimal_score` by
`_calculate_statistics_with_optimal` (lines 181-187): per-field defaults
optimal 0/100, acceptable 0/100. -/
def scoreBand (spec : Option BandSpec) : ℚ × ℚ × ℚ × ℚ :=
  match spec with
  | none => (0, 100, 0, 100)
  | some b => (b.optimalMin.getD 0, b.optimalMax.getD 100,
      b.acceptableMin.getD 0, b.acceptableMax.getD 100)

/-- The `optimal_score` field of `_calculate_statistics_with_optimal`
(lines 158-187): `0.0` for a channel with no values (line 169), otherwise
`_calculate_optimal_score` of the mean. -/
def channelOptimalScore (values : List ℚ) (spec : Option BandSpec) : ℚ :=
  if values = [] then 0
  else
    calcOptimalScore (mean values) (scoreBand spec).1 (scoreBand spec).2.1
      (scoreBand spec).2.2.1 (scoreBand spec).2.2.2

def channelList : List Channel :=
  [Channel.humidity, Channel.temperature, Channel.light, Channel.soilMoisture]

/-- `overall_score` of `analyze_average_data` (lines 129-136): every
channel's `optimal_score` is a number (0.0 when the channel has no samples),
so the source's `is not None` filter keeps all four scores; the overall score
is `np.mean` of the collected scores, 0.0 if none were collected. -/
def overallScore (data : List SensorSample) (conds : Channel → Option BandSpec) : ℚ :=
  if channelList.map (fun c => channelOptimalScore (channelValues data c) (conds c)) = []
  then 0
  else mean (channelList.map fun c => channelOptimalScore (channelValues data c) (conds c))

/-- Reference definition following the SPEC's words for claim C1 (refinement
comparison only, not a source translation): the overall score as the
arithmetic mean of the per-channel scores over exactly those channels with at
least one sample, and 0 when no channel has a sample. -/
def overallScoreSpec (data : List SensorSample) (conds : Channel → Option BandSpec) : ℚ :=
  if (channelList.filter fun c => decide (channelValues data c ≠ [])) = [] then 0
  else mean ((channelList.filter fun c => decide (channelValues data c ≠ [])).map
    fun c => channelOptimalScore (channelValues data c) (conds c))

/-- The '사과' (apple) crop entry of `crop_config.py` — the default crop of
farm 1 — as a concrete threshold table for witnesses and counterexamples. -/
def appleConds : Channel → Option BandSpec
  | Channel.humidity => some ⟨some 60, some 80, some 30, some 80, some 20, some 90⟩
  | Channel.temperature => some ⟨some 15, some 25, some 0, some 35, some (-5), some 40⟩
  | Channel.light => some ⟨some 60, some 80, some 50, some 80, some 30, some 100⟩
  | Channel.soilMoisture => some ⟨some 40, some 60, some 20, some 60, some 10, some 80⟩

/-- Does the character list `s` start with `sub`? -/
def startsWithChars : List Char → List Char → Bool
  | _, [] => true
  | [], _ :: _ => false
  | c :: s, d :: sub => c == d && startsWithChars s sub

/-- Substring containment on character lists. -/
def containsChars : List Char → List Char → Bool
  | [], sub => startsWithChars [] sub
  | s@(_ :: rest), sub => startsWithChars s sub || containsChars rest sub

/-- Python's substring test `sub in s`. -/
def strContains (s sub : String) : Bool := containsChars s.toList sub.toList

/-- Python's `str.lower()` (identity on the Korean sensor names). -/
def lowerStr (s : String) : String := String.mk (s.toList.map Char.toLower)

/-- One entry of the `sensors` list of `generate_control_commands`.  Payload
values are modelled as numbers (the source additionally accepts strings,
which `safe_float` / `float(...)` coerce; no claim concerns those). -/
structure SensorEntry where
  name : String
  rawValue : Option ℚ
  value : Option ℚ
  deriving DecidableEq

/-- First extraction pass, line 779-780:
`value = sensor.get('rawValue') or sensor.get('value', 0.0)` then
`safe_float(value, 0.0)`.  Python `or` treats a 0.0 rawValue as falsy, so a
present-but-zero rawValue falls back to the `value` field. -/
def rawOrValue (e : SensorEntry) : ℚ :=
  match e.rawValue with
  | some r => if r = 0 then e.value.getD 0 else r
  | none => e.value.getD 0

/-- Second extraction pass, line 874 etc.:
`current_value = sensor.get('rawValue', sensor.get('value', 0.0))` — here a
present rawValue is used whenever the key exists, even when it equals 0. -/
def rawKeyOrValue (e : SensorEntry) : ℚ :=
  match e.rawValue with
  | some r => r
  | none => e.value.getD 0

def soilWords (n : String) : Bool :=
  strContains n "토양" || strContains n "soil" || strContains n "진동" ||
    strContains n "vibration"

def lightWords (n : String) : Bool :=
  strContains n "채광" || strContains n "light" || strContains n "압력" ||
    strContains n "pressure"

def humidityWords (n : String) : Bool :=
  strContains n "습도" || strContains n "humidity"

def temperatureWords (n : String) : Bool :=
  strContains n "온도" || strContains n "temperature"

/-- Name classification of the sensors_dict-building pass (lines 786-802):
soil first, then light/pressure, then humidity, then temperature. -/
def classifyName (nameLower : String) : Option Channel :=
  if soilWords nameLower then some Channel.soilMoisture
  else if lightWords nameLower then some Channel.light
  else if humidityWords nameLower then some Channel.humidity
  else if temperatureWords nameLower then some Channel.temperature
  else none

/-- The sensors_dict built from a sensors list (lines 770-802); later entries
overwrite earlier ones for the same channel, as dict assignment does. -/
def buildSensorsDict (entries : List SensorEntry) : Channel → Option ℚ :=
  entries.foldl
    (fun d e =>
      match classifyName (lowerStr e.name) with
      | some c => fun c2 => if c2 = c then some (rawOrValue e) else d c2
      | none => d)
    (fun _ => none)

/-- The two input forms of `generate_control_commands` (lines 770-810): a
`sensors` list, or direct per-channel fields. -/
inductive SensorInput where
  | sensorsList (entries : List SensorEntry)
  | direct (fields : Channel → Option ℚ)

/-- sensors_dict before clipping: built from the list, or (lines 805-810)
all four keys present with `safe_float(get(key, 0.0))`, so an absent or null
direct field becomes 0.0. -/
def initialDict : SensorInput → Channel → Option ℚ
  | SensorInput.sensorsList es => buildSensorsDict es
  | SensorInput.direct f => fun c => some ((f c).getD 0)

/-- Physical validity ranges (lines 813-818). -/
def validRange : Channel → ℚ × ℚ
  | Channel.humidity => (0, 100)
  | Channel.temperature => (-10, 50)
  | Channel.light => (0, 100)
  | Channel.soilMoisture => (0, 100)

def clampChannel (c : Channel) (v : ℚ) : ℚ :=
  max (validRange c).1 (min (validRange c).2 v)

/-- The clipping loop (lines 820-830): every key present in sensors_dict is
clamped into its validity range (in-range values are left unchanged, which
the clamp also does). -/
def clipDict (d : Channel → Option ℚ) (c : Channel) : Option ℚ :=
  (d c).map (clampChannel c)

/-- State of the optional learned predictor as seen by one invocation:
whether an `ml_trainer` was passed, whether it reports itself trained, and —
when trained — the output of `predict_anomaly` on the clipped dict values
(the classifier itself is external; its output is universally quantified). -/
structure MLState where
  present : Bool
  trained : Bool
  isAnomaly : Bool
  confidence : ℚ
  deriving DecidableEq

/-- `ml_anomaly_prediction` truthiness: `None` unless a trained trainer was
supplied, then the predicted Boolean (lines 833-845). -/
def mlAnomalyFlag (ml : MLState) : Bool := ml.present && ml.trained && ml.isAnomaly

/-- `ml_confidence`: 0.5 unless a trained trainer was supplied (lines 834, 844). -/
def mlConfidenceVal (ml : MLState) : ℚ :=
  if ml.present && ml.trained then ml.confidence else 1/2

/-- Magnitude factor of lines 960-971 / 1008-1019: 100% only when the
predictor flagged an anomaly with confidence above 0.7, 95% when it flagged
one with confidence above 0.5, otherwise 90%. -/
def mlFactor (ml : MLState) : ℚ :=
  if mlAnomalyFlag ml = true ∧ mlConfidenceVal ml > 7/10 then 1
  else if mlAnomalyFlag ml = true ∧ mlConfidenceVal ml > 1/2 then 19/20
  else 9/10

/-- The `ml_anomaly` command field (line 995): the prediction when a trained
trainer exists, otherwise Python `None`. -/
def mlAnomalyField (ml : MLState) : Option Bool :=
  if ml.present && ml.trained then some ml.isAnomaly else none

/-- The `ml_confidence` command field (line 996). -/
def mlConfidenceField (ml : MLState) : Option ℚ :=
  if ml.present then some (mlConfidenceVal ml) else none

/-- Python `round` (banker's rounding, half to even) on an exact rational. -/
def roundHalfEven (q : ℚ) : ℤ :=
  if q - ⌊q⌋ < 1/2 then ⌊q⌋
  else if 1/2 < q - ⌊q⌋ then ⌊q⌋ + 1
  else if ⌊q⌋ % 2 = 0 then ⌊q⌋ else ⌊q⌋ + 1

/-- Python `round(x, 1)` (line 992 / 1041) on an exact rational. -/
def round1 (q : ℚ) : ℚ := (roundHalfEven (q * 10) : ℚ) / 10

inductive Action where
  | increase
  | decrease
  deriving DecidableEq

/-- An emitted control command; the formatted `reason` string is not
modelled (it carries no decision logic). -/
structure Command where
  sensorIndex : ℕ
  sensorName : String
  currentValue : ℚ
  targetValue : ℚ
  action : Action
  offset : ℚ
  device : String
  mlAnomaly : Option Bool
  mlConfidence : Option ℚ
  deriving DecidableEq

/-- One row of `sensor_configs` (lines 851-856). -/
structure ChannelConfig where
  index : ℕ
  key : Channel
  name : String
  deviceUp : String
  deviceDown : String
  deriving DecidableEq

def sensorConfigs : List ChannelConfig :=
  [⟨1, Channel.humidity, "습도", "가습기", "환기"⟩,
   ⟨2, Channel.temperature, "온도", "히터", "냉방"⟩,
   ⟨3, Channel.light, "채광", "LED 조명", "LED 조명 끄기"⟩,
   ⟨4, Channel.soilMoisture, "토양습도", "급수", "배수"⟩]

/-- The per-entry match conditions of the command loop (lines 873-903),
in source order: soil, light/pressure, humidity (excluding soil/pressure
names), temperature — each conjoined with the channel key being sought. -/
def pass2Match (key : Channel) (nameLower : String) : Bool :=
  if soilWords nameLower && (key == Channel.soilMoisture) then true
  else if lightWords nameLower && (key == Channel.light) then true
  else if humidityWords nameLower && (key == Channel.humidity) &&
      !(strContains nameLower "토양") && !(strContains nameLower "압력") &&
      !(strContains nameLower "pressure") then true
  else if temperatureWords nameLower && (key == Channel.temperature) then true
  else false

/-- Current-value resolution of the command loop (lines 861-917): for the
sensors-list form, the first matching entry's `rawValue`-or-`value` — note,
the RAW entry value, not the clipped sensors_dict one; when nothing matches
(and always for the direct form), the clipped sensors_dict value with
default 0.0 (line 906). -/
def resolveCurrent (input : SensorInput) (dict : Channel → Option ℚ) (key : Channel) : ℚ :=
  match input with
  | SensorInput.sensorsList entries =>
      match entries.find? (fun e => pass2Match key (lowerStr e.name)) with
      | some e => rawKeyOrValue e
      | none => (dict key).getD 0
  | SensorInput.direct _ => (dict key).getD 0

/-- Resolved control-loop band (lines 922-934): `conditions.get(key, {})`
followed by per-field defaults optimal 50/80, acceptable 30/80.  The
acceptable bounds are read by the source but never used in the decision. -/
structure ControlBand where
  optimalMin : ℚ
  optimalMax : ℚ
  acceptableMin : ℚ
  acceptableMax : ℚ
  deriving DecidableEq

def controlBand (spec : Option BandSpec) : ControlBand :=
  match spec with
  | none => ⟨50, 80, 30, 80⟩
  | some b => ⟨b.optimalMin.getD 50, b.optimalMax.getD 80,
      b.acceptableMin.getD 30, b.acceptableMax.getD 80⟩

/-- The per-channel decision on a resolved current value (lines 936-1046):
hysteresis band with tolerance 5% of the optimal width, then an increase
command below `optimal_min` / a decrease command above `optimal_max` (the
latter only if a decrease device exists — all four channels have one),
targeting the band midpoint with the ML-scaled rounded magnitude.  The
`final_sensor_name` relabelling of lines 977-984 / 1026-1033 assigns the
config name in every branch and is embedded as `cfg.name`. -/
def channelDecision (cv : ℚ) (cfg : ChannelConfig) (spec : Option BandSpec) (ml : MLState) :
    Option Command :=
  if (controlBand spec).optimalMin - ((controlBand spec).optimalMax - (controlBand spec).optimalMin) * (1/20) ≤ cv ∧
     cv ≤ (controlBand spec).optimalMax + ((controlBand spec).optimalMax - (controlBand spec).optimalMin) * (1/20) then
    none
  else if cv < (controlBand spec).optimalMin then
    some ⟨cfg.index, cfg.name, cv,
      ((controlBand spec).optimalMin + (controlBand spec).optimalMax) / 2,
      Action.increase,
      round1 (|((controlBand spec).optimalMin + (controlBand spec).optimalMax) / 2 - cv| * mlFactor ml),
      cfg.deviceUp, mlAnomalyField ml, mlConfidenceField ml⟩
  else if cv > (controlBand spec).optimalMax then
    if cfg.deviceDown ≠ "" then
      some ⟨cfg.index, cfg.name, cv,
        ((controlBand spec).optimalMin + (controlBand spec).optimalMax) / 2,
        Action.decrease,
        round1 (|cv - ((controlBand spec).optimalMin + (controlBand spec).optimalMax) / 2| * mlFactor ml),
        cfg.deviceDown, mlAnomalyField ml, mlConfidenceField ml⟩
    else none
  else none

/-- One iteration of the command loop for one channel config, including the
skip check of line 919: `current_value == 0.0 and sensor_key not in
sensors_dict and current_value is None` — its last conjunct contradicts its
first (a float is never None), so it can never fire; embedded verbatim as a
conjunction with `False`. -/
def channelCommand (input : SensorInput) (dict : Channel → Option ℚ) (cfg : ChannelConfig)
    (conds : Channel → Option BandSpec) (ml : MLState) : Option Command :=
  if resolveCurrent input dict cfg.key = 0 ∧ (dict cfg.key).isNone = true ∧ False then none
  else channelDecision (resolveCurrent input dict cfg.key) cfg (conds cfg.key) ml

/-- `generate_control_commands` (lines 728-1048) for a resolved crop table:
build sensors_dict, clip it, then run the command loop over the four channel
configs, collecting the emitted commands in order. -/
def generateControlCommands (input : SensorInput) (conds : Channel → Option BandSpec)
    (ml : MLState) : List Command :=
  sensorConfigs.filterMap fun cfg =>
    channelCommand input (clipDict (initialDict input)) cfg conds ml

/-- The ML-independent part of a command (everything except magnitude and the
ml fields; the unmodelled reason string may also vary with ML state). -/
structure CommandShape where
  sensorIndex : ℕ
  sensorName : String
  currentValue : ℚ
  targetValue : ℚ
  action : Action
  device : String
  deriving DecidableEq

def shapeOf (cmd : Command) : CommandShape :=
  ⟨cmd.sensorIndex, cmd.sensorName, cmd.currentValue, cmd.targetValue, cmd.action, cmd.device⟩

/-- No trainer passed (`ml_trainer=None`). -/
def noML : MLState := ⟨false, false, false, 1/2⟩

/-- The humidity row of `sensor_configs`. -/
def humidityCfg : ChannelConfig := ⟨1, Channel.humidity, "습도", "가습기", "환기"⟩

/-- A trained predictor output: not anomalous, confidence 0.8. -/
def mlConfNoAnomaly : MLState := ⟨true, true, false, 4/5⟩

/-- A trained predictor output: anomalous, confidence 0.8. -/
def mlAnomalous08 : MLState := ⟨true, true, true, 4/5⟩

/-- Direct-field input: humidity 150 (beyond the physical range), the other
three channels inside their apple optimal bands. -/
def fDirect150 : Channel → Option ℚ
  | Channel.humidity => some 150
  | Channel.temperature => some 20
  | Channel.light => some 70
  | Channel.soilMoisture => some 50

/-- The single command emitted for `fDirect150`: humidity clamped to 100,
decrease towards 70 with magnitude 27. -/
def cmdClamped : Command :=
  ⟨1, "습도", 100, 70, Action.decrease, 27, "환기", none, none⟩

-- ===== Theorems =====

theorem calcOptimalScore_in_optimal (value optMin optMax accMin accMax : ℚ)
    (hband : optMin < optMax) (h1 : optMin ≤ value) (h2 : value ≤ optMax) :
    calcOptimalScore value optMin optMax accMin accMax = 1 := by
  unfold calcOptimalScore
  rw [if_neg (not_le.mpr hband), if_pos ⟨h1, h2⟩]

/-- Claim C8 (corrected): for a non-degenerate band (`opt_min < opt_max`),
every value inside the optimal band scores exactly 1.0, and (for any band)
such a value is assigned the optimal-level status `"최적"`. -/
theorem optimal_band_score_and_status (value optMin optMax accMin accMax critMin critMax : ℚ)
    (hband : optMin < optMax) (h1 : optMin ≤ value) (h2 : value ≤ optMax) :
    calcOptimalScore value optMin optMax accMin accMax = 1 ∧
    determineStatus value optMin optMax accMin accMax critMin critMax = "최적" := by
  refine ⟨calcOptimalScore_in_optimal value optMin optMax accMin accMax hband h1 h2, ?_⟩
  unfold determineStatus
  rw [if_pos ⟨h1, h2⟩]

theorem optimal_band_score_and_status_witness :
    calcOptimalScore 70 60 80 30 80 = 1 ∧
    determineStatus 70 60 80 30 80 20 90 = "최적" :=
  optimal_band_score_and_status 70 60 80 30 80 20 90 (by norm_num) (by norm_num) (by norm_num)

theorem score_acc_low (v optMin optMax accMin accMax : ℚ) (hband : optMin < optMax)
    (h1 : accMin ≤ v) (h2 : v < optMin) :
    calcOptimalScore v optMin optMax accMin accMax =
      max (3/5) (1 - ((optMin - v) / (optMax - optMin)) * (2/5)) := by
  unfold calcOptimalScore
  rw [if_neg (not_le.mpr hband), if_neg (by rintro ⟨ha, _⟩; linarith), if_pos ⟨h1, h2⟩]

theorem score_acc_high (v optMin optMax accMin accMax : ℚ) (hband : optMin < optMax)
    (h1 : optMax < v) (h2 : v ≤ accMax) :
    calcOptimalScore v optMin optMax accMin accMax =
      max (3/5) (1 - ((v - optMax) / (optMax - optMin)) * (2/5)) := by
  unfold calcOptimalScore
  rw [if_neg (not_le.mpr hband), if_neg (by rintro ⟨_, hb⟩; linarith),
      if_neg (by rintro ⟨_, hb⟩; linarith), if_pos ⟨h1, h2⟩]

theorem score_out_low (v optMin optMax accMin accMax : ℚ) (hbl : accMin ≤ optMin)
    (hband : optMin < optMax) (h : v < accMin) :
    calcOptimalScore v optMin optMax accMin accMax =
      max (1/5) (3/5 - ((accMin - v) / (optMax - optMin)) * (2/5)) := by
  unfold calcOptimalScore
  rw [if_neg (not_le.mpr hband), if_neg (by rintro ⟨ha, _⟩; linarith),
      if_neg (by rintro ⟨ha, _⟩; linarith), if_neg (by rintro ⟨ha, _⟩; linarith),
      if_pos h]

theorem score_out_high (v optMin optMax accMin accMax : ℚ) (hbl : accMin ≤ optMin)
    (hband : optMin < optMax) (hbh : optMax ≤ accMax) (h : accMax < v) :
    calcOptimalScore v optMin optMax accMin accMax =
      max (1/5) (3/5 - ((v - accMax) / (optMax - optMin)) * (2/5)) := by
  unfold calcOptimalScore
  rw [if_neg (not_le.mpr hband), if_neg (by rintro ⟨_, hb⟩; linarith),
      if_neg (by rintro ⟨_, hb⟩; linarith), if_neg (by rintro ⟨_, hb⟩; linarith),
      if_neg (not_lt.mpr (by linarith))]

theorem scaled_div_mono (a b r : ℚ) (hr : 0 < r) (h : a ≤ b) :
    a / r * (2/5) ≤ b / r * (2/5) :=
  mul_le_mul_of_nonneg_right ((div_le_div_iff_of_pos_right hr).mpr h) (by norm_num)

theorem score_le_one (v optMin optMax accMin accMax : ℚ) (hbl : accMin ≤ optMin)
    (hband : optMin < optMax) (hbh : optMax ≤ accMax) :
    calcOptimalScore v optMin optMax accMin accMax ≤ 1 := by
  have hr : (0:ℚ) < optMax - optMin := by linarith
  rcases lt_or_le v optMin with h | h
  · rcases lt_or_le v accMin with h2 | h2
    · rw [score_out_low v _ _ _ _ hbl hband h2]
      have hx : 0 ≤ ((accMin - v) / (optMax - optMin)) * (2/5) :=
        mul_nonneg (div_nonneg (by linarith) (by linarith)) (by norm_num)
      exact max_le (by norm_num) (by linarith)
    · rw [score_acc_low v _ _ _ _ hband h2 h]
      have hx : 0 ≤ ((optMin - v) / (optMax - optMin)) * (2/5) :=
        mul_nonneg (div_nonneg (by linarith) (by linarith)) (by norm_num)
      exact max_le (by norm_num) (by linarith)
  · rcases le_or_lt v optMax with h2 | h2
    · rw [calcOptimalScore_in_optimal v _ _ _ _ hband h h2]
    · rcases le_or_lt v accMax with h3 | h3
      · rw [score_acc_high v _ _ _ _ hband h2 h3]
        have hx : 0 ≤ ((v - optMax) / (optMax - optMin)) * (2/5) :=
          mul_nonneg (div_nonneg (by linarith) (by linarith)) (by norm_num)
        exact max_le (by norm_num) (by linarith)
      · rw [score_out_high v _ _ _ _ hbl hband hbh h3]
        have hx : 0 ≤ ((v - accMax) / (optMax - optMin)) * (2/5) :=
          mul_nonneg (div_nonneg (by linarith) (by linarith)) (by norm_num)
        exact max_le (by norm_num) (by linarith)

theorem score_mono_low (optMin optMax accMin accMax : ℚ) (hbl : accMin ≤ optMin)
    (hband : optMin < optMax) (hbh : optMax ≤ accMax) (v1 v2 : ℚ)
    (h12 : v1 ≤ v2) (h2 : v2 ≤ optMin) :
    calcOptimalScore v1 optMin optMax accMin accMax ≤
      calcOptimalScore v2 optMin optMax accMin accMax := by
  have hr : (0:ℚ) < optMax - optMin := by linarith
  rcases eq_or_lt_of_le h2 with he | hlt
  · rw [he, calcOptimalScore_in_optimal optMin _ _ _ _ hband le_rfl hband.le]
    exact score_le_one v1 _ _ _ _ hbl hband hbh
  · rcases lt_or_le v2 accMin with ha | ha
    · have h1a : v1 < accMin := lt_of_le_of_lt h12 ha
      rw [score_out_low v1 _ _ _ _ hbl hband h1a, score_out_low v2 _ _ _ _ hbl hband ha]
      have hd := scaled_div_mono (accMin - v2) (accMin - v1) (optMax - optMin) hr (by linarith)
      exact max_le_max le_rfl (by linarith)
    · rw [score_acc_low v2 _ _ _ _ hband ha hlt]
      rcases lt_or_le v1 accMin with hb | hb
      · rw [score_out_low v1 _ _ _ _ hbl hband hb]
        have hx : 0 ≤ ((accMin - v1) / (optMax - optMin)) * (2/5) :=
          mul_nonneg (div_nonneg (by linarith) (by linarith)) (by norm_num)
        exact le_trans (max_le (by norm_num) (by linarith)) (le_max_left _ _)
      · have h1lt : v1 < optMin := lt_of_le_of_lt h12 hlt
        rw [score_acc_low v1 _ _ _ _ hband hb h1lt]
        have hd := scaled_div_mono (optMin - v2) (optMin - v1) (optMax - optMin) hr (by linarith)
        exact max_le_max le_rfl (by linarith)

theorem score_mono_high (optMin optMax accMin accMax : ℚ) (hbl : accMin ≤ optMin)
    (hband : optMin < optMax) (hbh : optMax ≤ accMax) (v1 v2 : ℚ)
    (hm1 : optMax ≤ v1) (h12 : v1 ≤ v2) :
    calcOptimalScore v2 optMin optMax accMin accMax ≤
      calcOptimalScore v1 optMin optMax accMin accMax := by
  have hr : (0:ℚ) < optMax - optMin := by linarith
  rcases eq_or_lt_of_le hm1 with he | hlt
  · rw [← he, calcOptimalScore_in_optimal optMax _ _ _ _ hband hband.le le_rfl]
    exact score_le_one v2 _ _ _ _ hbl hband hbh
  · rcases le_or_lt v2 accMax with ha | ha
    · have h1a : v1 ≤ accMax := le_trans h12 ha
      have h2lt : optMax < v2 := lt_of_lt_of_le hlt h12
      rw [score_acc_high v1 _ _ _ _ hband hlt h1a, score_acc_high v2 _ _ _ _ hband h2lt ha]
      have hd := scaled_div_mono (v1 - optMax) (v2 - optMax) (optMax - optMin) hr (by linarith)
      exact max_le_max le_rfl (by linarith)
    · rw [score_out_high v2 _ _ _ _ hbl hband hbh ha]
      rcases le_or_lt v1 accMax with hb | hb
      · rw [score_acc_high v1 _ _ _ _ hband hlt hb]
        have hx : 0 ≤ ((v2 - accMax) / (optMax - optMin)) * (2/5) :=
          mul_nonneg (div_nonneg (by linarith) (by linarith)) (by norm_num)
        exact le_trans (max_le (by norm_num) (by linarith)) (le_max_left _ _)
      · rw [score_out_high v1 _ _ _ _ hbl hband hbh hb]
        have hd := scaled_div_mono (v1 - accMax) (v2 - accMax) (optMax - optMin) hr (by linarith)
        exact max_le_max le_rfl (by linarith)

/-- Claim C7, counterexample to the claim as stated: for the apple humidity
band (optimal 60-80, acceptable 30-80, so `opt_min < opt_max`), the values 85
and 55 lie at the same distance 5 from the optimal band, yet the score at 85
(0.5) is strictly below the score at 55 (0.9).  Hence the score is not
monotonically non-increasing in the distance from the optimal band: with
`v1 = 85`, `v2 = 55` we have `dist v1 ≤ dist v2` but `score v1 < score v2`. -/
theorem score_distance_monotone_cex :
    distToOptimal 85 60 80 = distToOptimal 55 60 80 ∧
    calcOptimalScore 85 60 80 30 80 < calcOptimalScore 55 60 80 30 80 := by
  constructor
  · norm_num [distToOptimal]
  · norm_num [calcOptimalScore]

/-- Claim C7 (amended): for every well-formed band
(`acc_min ≤ opt_min < opt_max ≤ acc_max`), the optimality score is
monotonically non-increasing in the distance from the optimal band *on each
side separately* (moving a value further below `opt_min`, or further above
`opt_max`, never increases the score; across the two sides the score is not a
function of the distance alone), and is bounded by region exactly as claimed:
acceptable-but-not-optimal values score in [0.6, 1.0) and values outside the
acceptable range score in [0.2, 0.6). -/
theorem score_monotone_per_side_and_bounded (optMin optMax accMin accMax : ℚ)
    (hbl : accMin ≤ optMin) (hband : optMin < optMax) (hbh : optMax ≤ accMax) :
    (∀ v1 v2 : ℚ, v1 ≤ v2 → v2 ≤ optMin →
      calcOptimalScore v1 optMin optMax accMin accMax ≤
        calcOptimalScore v2 optMin optMax accMin accMax) ∧
    (∀ v1 v2 : ℚ, optMax ≤ v1 → v1 ≤ v2 →
      calcOptimalScore v2 optMin optMax accMin accMax ≤
        calcOptimalScore v1 optMin optMax accMin accMax) ∧
    (∀ v : ℚ, (accMin ≤ v ∧ v < optMin) ∨ (optMax < v ∧ v ≤ accMax) →
      3/5 ≤ calcOptimalScore v optMin optMax accMin accMax ∧
        calcOptimalScore v optMin optMax accMin accMax < 1) ∧
    (∀ v : ℚ, v < accMin ∨ accMax < v →
      1/5 ≤ calcOptimalScore v optMin optMax accMin accMax ∧
        calcOptimalScore v optMin optMax accMin accMax < 3/5) := by
  have hr : (0:ℚ) < optMax - optMin := by linarith
  refine ⟨score_mono_low optMin optMax accMin accMax hbl hband hbh,
          score_mono_high optMin optMax accMin accMax hbl hband hbh, ?_, ?_⟩
  · rintro v (⟨h1, h2⟩ | ⟨h1, h2⟩)
    · rw [score_acc_low v _ _ _ _ hband h1 h2]
      have hx : 0 < ((optMin - v) / (optMax - optMin)) * (2/5) :=
        mul_pos (div_pos (by linarith) hr) (by norm_num)
      exact ⟨le_max_left _ _, max_lt (by norm_num) (by linarith)⟩
    · rw [score_acc_high v _ _ _ _ hband h1 h2]
      have hx : 0 < ((v - optMax) / (optMax - optMin)) * (2/5) :=
        mul_pos (div_pos (by linarith) hr) (by norm_num)
      exact ⟨le_max_left _ _, max_lt (by norm_num) (by linarith)⟩
  · rintro v (h | h)
    · rw [score_out_low v _ _ _ _ hbl hband h]
      have hx : 0 < ((accMin - v) / (optMax - optMin)) * (2/5) :=
        mul_pos (div_pos (by linarith) hr) (by norm_num)
      exact ⟨le_max_left _ _, max_lt (by norm_num) (by linarith)⟩
    · rw [score_out_high v _ _ _ _ hbl hband hbh h]
      have hx : 0 < ((v - accMax) / (optMax - optMin)) * (2/5) :=
        mul_pos (div_pos (by linarith) hr) (by norm_num)
      exact ⟨le_max_left _ _, max_lt (by norm_num) (by linarith)⟩

theorem score_monotone_per_side_witness :
    calcOptimalScore 40 60 80 30 80 ≤ calcOptimalScore 55 60 80 30 80 :=
  (score_monotone_per_side_and_bounded 60 80 30 80 (by norm_num) (by norm_num)
    (by norm_num)).1 40 55 (by norm_num) (by norm_num)

/-- Claim C8, counterexample to the claim as stated: for the degenerate band
`opt_min = opt_max = 50` and the value `v = 50` (which satisfies
`opt_min ≤ v ≤ opt_max`), the optimality score is the defensive fallback
`0.5`, not `1.0` (ai_analysis.py line 218), though the status is `"최적"`. -/
theorem optimal_band_score_degenerate_cex :
    calcOptimalScore 50 50 50 0 100 = 1/2 ∧ (1/2 : ℚ) ≠ 1 ∧
    determineStatus 50 50 50 0 100 (-10) 110 = "최적" := by
  refine ⟨by norm_num [calcOptimalScore], by norm_num, by norm_num [determineStatus]⟩

/-- Claim C9: a channel with fewer than 3 valid (non-missing) values, or with
zero population standard deviation (equivalently, zero variance), produces no
anomalies regardless of band violations; the per-reading classification —
the only place the z-score divides by the standard deviation — is reached
only behind the `variance ≠ 0` guard, so the divisor is never zero. -/
theorem anomaly_detection_guards (values : List (Option ℚ)) (spec : Option BandSpec) (t : ℚ)
    (h : (values.filterMap id).length < 3 ∨ popVariance (values.filterMap id) = 0) :
    detectSensorAnomalies values spec t = [] := by
  unfold detectSensorAnomalies
  rcases h with h | h
  · rw [if_pos h]
  · rcases Nat.lt_or_ge (values.filterMap id).length 3 with h3 | h3
    · rw [if_pos h3]
    · rw [if_neg (Nat.not_lt.mpr h3), if_pos h]

theorem anomaly_detection_guards_witness :
    detectSensorAnomalies [some 5, some 5, some 5, none] none 2 = [] :=
  anomaly_detection_guards [some 5, some 5, some 5, none] none 2
    (Or.inr (by norm_num [popVariance, mean, List.filterMap_cons, List.filterMap_nil,
      List.sum_cons, List.sum_nil, List.length_cons, List.length_nil, List.map_cons,
      List.map_nil]))

/-- Claim C1, counterexample to the claim as stated: a non-empty sample list
with one humidity reading 70 (inside the apple optimal band, so per-channel
score 1) and no readings on the other three channels.  The claimed overall
score — the mean over channels that have samples — is 1, but the code's
overall score is 1/4: a channel with no samples has optimal_score 0.0 (a
number, not None), so the `is not None` filter at line 133 excludes
nothing and all four channels enter the mean. -/
theorem overall_score_cex :
    overallScore [⟨some 70, none, none, none⟩] appleConds = 1/4 ∧
    overallScoreSpec [⟨some 70, none, none, none⟩] appleConds = 1 ∧
    (1/4 : ℚ) ≠ 1 := by
  refine ⟨?_, ?_, by norm_num⟩
  · norm_num [overallScore, channelList, channelOptimalScore, channelValues, sampleField,
      appleConds, scoreBand, calcOptimalScore, mean, List.filterMap_cons, List.filterMap_nil,
      List.sum_cons, List.sum_nil, List.length_cons, List.length_nil, List.map_cons,
      List.map_nil, List.filter_cons, List.filter_nil]
    exact List.cons_ne_nil _ _
  · norm_num [overallScoreSpec, channelList, channelOptimalScore, channelValues, sampleField,
      appleConds, scoreBand, calcOptimalScore, mean, List.filterMap_cons, List.filterMap_nil,
      List.sum_cons, List.sum_nil, List.length_cons, List.length_nil, List.map_cons,
      List.map_nil, List.filter_cons, List.filter_nil]

/-- Claim C1 (amended): the overall score is the arithmetic mean over ALL
four channels, where a channel with no samples contributes optimality score 0
(channels with no samples are included, not excluded); consequently it is 0
when all four channels are sample-free, and it agrees with the spec's
mean-over-sampled-channels exactly when every channel has a sample. -/
theorem overall_score_amended (data : List SensorSample) (conds : Channel → Option BandSpec) :
    overallScore data conds =
      (channelOptimalScore (channelValues data Channel.humidity) (conds Channel.humidity) +
       channelOptimalScore (channelValues data Channel.temperature) (conds Channel.temperature) +
       channelOptimalScore (channelValues data Channel.light) (conds Channel.light) +
       channelOptimalScore (channelValues data Channel.soilMoisture)
         (conds Channel.soilMoisture)) / 4 ∧
    ((∀ c, channelValues data c = []) → overallScore data conds = 0) ∧
    ((∀ c, channelValues data c ≠ []) → overallScore data conds = overallScoreSpec data conds) := by
  refine ⟨?_, ?_, ?_⟩
  · simp only [overallScore, channelList, List.map_cons, List.map_nil, mean, List.sum_cons,
      List.sum_nil, List.length_cons, List.length_nil, if_neg (List.cons_ne_nil _ _)]
    norm_num
    ring
  · intro h
    simp [overallScore, channelList, channelOptimalScore, mean, h]
  · intro h
    simp [overallScore, overallScoreSpec, channelList, List.filter_cons, h]

theorem overall_score_amended_witness :
    overallScore [] appleConds = 0 :=
  (overall_score_amended [] appleConds).2.1 fun c => by cases c <;> rfl

theorem validRange_le (c : Channel) : (validRange c).1 ≤ (validRange c).2 := by
  cases c <;> norm_num [validRange]

theorem channelDecision_fields (cv : ℚ) (cfg : ChannelConfig) (spec : Option BandSpec)
    (ml : MLState) (cmd : Command) (h : channelDecision cv cfg spec ml = some cmd) :
    cmd.currentValue = cv ∧ cmd.sensorIndex = cfg.index := by
  unfold channelDecision at h
  split_ifs at h <;>
    (simp only [Option.some.injEq] at h; subst h; exact ⟨rfl, rfl⟩)

theorem channelDecision_shape (cv : ℚ) (cfg : ChannelConfig) (spec : Option BandSpec)
    (ml1 ml2 : MLState) :
    (channelDecision cv cfg spec ml1).map shapeOf =
      (channelDecision cv cfg spec ml2).map shapeOf := by
  unfold channelDecision
  split_ifs <;> rfl

theorem channelCommand_shape (input : SensorInput) (dict : Channel → Option ℚ)
    (cfg : ChannelConfig) (conds : Channel → Option BandSpec) (ml1 ml2 : MLState) :
    (channelCommand input dict cfg conds ml1).map shapeOf =
      (channelCommand input dict cfg conds ml2).map shapeOf := by
  unfold channelCommand
  split_ifs
  · rfl
  · exact channelDecision_shape _ _ _ _ _

/-- Claim C2 (code bug): the skip guard of line 919 — meant, per its own
comment, to skip a channel with no sensor data — requires
`current_value == 0.0` AND `current_value is None` simultaneously, which no
value satisfies, so no channel is ever skipped.  At the failing input
`{"sensors": []}` (no channel resolvable) with the default apple crop bands,
the code emits an increase command with current value 0.0 for every one of
the four channels, where the claim requires none. -/
theorem dead_skip_guard :
    (generateControlCommands (SensorInput.sensorsList []) appleConds noML).map
      (fun c => (c.sensorIndex, c.currentValue, c.action)) =
    [(1, 0, Action.increase), (2, 0, Action.increase), (3, 0, Action.increase),
     (4, 0, Action.increase)] := by
  have d1 : ("환기" = "") = False := eq_false (by decide)
  have d2 : ("냉방" = "") = False := eq_false (by decide)
  have d3 : ("LED 조명 끄기" = "") = False := eq_false (by decide)
  have d4 : ("배수" = "") = False := eq_false (by decide)
  norm_num [generateControlCommands, sensorConfigs, channelCommand, channelDecision,
    resolveCurrent, clipDict, initialDict, buildSensorsDict, controlBand, appleConds,
    mlFactor, mlAnomalyFlag, mlConfidenceVal, mlAnomalyField, mlConfidenceField, noML,
    d1, d2, d3, d4, List.filterMap_cons, List.filterMap_nil, List.find?]

/-- Claim C3, counterexample to the claim as stated: for the sensors-list
input form, the command loop re-extracts the raw entry value instead of the
clipped sensors_dict value.  With the single entry `{name: "습도",
value: 150}` (humidity beyond its 0-100 physical range) and the apple bands,
the emitted humidity command carries current value 150, not the clamped
100 the claim requires. -/
theorem sensors_list_not_clamped_cex :
    (generateControlCommands (SensorInput.sensorsList [⟨"습도", none, some 150⟩]) appleConds
      noML).map (fun c => (c.sensorIndex, c.currentValue)) =
      [(1, 150), (2, 0), (3, 0), (4, 0)] ∧
    ¬((150 : ℚ) ≤ 100) := by
  have hcn : classifyName (lowerStr "습도") = some Channel.humidity := by decide
  have hp1 : pass2Match Channel.humidity (lowerStr "습도") = true := by decide
  have hp2 : pass2Match Channel.temperature (lowerStr "습도") = false := by decide
  have hp3 : pass2Match Channel.light (lowerStr "습도") = false := by decide
  have hp4 : pass2Match Channel.soilMoisture (lowerStr "습도") = false := by decide
  have eT : (Channel.temperature = Channel.humidity) = False := eq_false (by decide)
  have eL : (Channel.light = Channel.humidity) = False := eq_false (by decide)
  have eS : (Channel.soilMoisture = Channel.humidity) = False := eq_false (by decide)
  have d1 : ("환기" = "") = False := eq_false (by decide)
  have d2 : ("냉방" = "") = False := eq_false (by decide)
  have d3 : ("LED 조명 끄기" = "") = False := eq_false (by decide)
  have d4 : ("배수" = "") = False := eq_false (by decide)
  refine ⟨?_, by norm_num⟩
  norm_num [generateControlCommands, sensorConfigs, channelCommand, channelDecision,
    resolveCurrent, clipDict, initialDict, buildSensorsDict, rawOrValue, rawKeyOrValue,
    clampChannel, validRange, controlBand, appleConds, mlFactor, mlAnomalyFlag,
    mlConfidenceVal, mlAnomalyField, mlConfidenceField, noML, hcn, hp1, hp2, hp3, hp4,
    eT, eL, eS, d1, d2, d3, d4, List.filterMap_cons, List.filterMap_nil, List.find?,
    List.foldl]

/-- Claim C3 (amended): clamping into the physical validity range holds for
the direct-field input form (and for the sensors_dict fallback), but not for
the sensors-list form, whose matching entries are re-read raw: every command
emitted for a direct-field input carries as current value exactly the clamp
of that channel's field, hence a value inside the physical range. -/
theorem direct_fields_clamped (f : Channel → Option ℚ) (conds : Channel → Option BandSpec)
    (ml : MLState) (cmd : Command)
    (h : cmd ∈ generateControlCommands (SensorInput.direct f) conds ml) :
    ∃ cfg ∈ sensorConfigs, cmd.sensorIndex = cfg.index ∧
      cmd.currentValue = clampChannel cfg.key ((f cfg.key).getD 0) ∧
      (validRange cfg.key).1 ≤ cmd.currentValue ∧
      cmd.currentValue ≤ (validRange cfg.key).2 := by
  unfold generateControlCommands at h
  rw [List.mem_filterMap] at h
  obtain ⟨cfg, hmem, heq⟩ := h
  simp only [channelCommand, and_false, if_false, ite_false] at heq
  have hres : resolveCurrent (SensorInput.direct f) (clipDict (initialDict (SensorInput.direct f)))
      cfg.key = clampChannel cfg.key ((f cfg.key).getD 0) := by
    simp [resolveCurrent, clipDict, initialDict]
  rw [hres] at heq
  obtain ⟨hcv, hidx⟩ := channelDecision_fields _ _ _ _ _ heq
  refine ⟨cfg, hmem, hidx, hcv, ?_, ?_⟩
  · rw [hcv]
    exact le_max_left _ _
  · rw [hcv]
    exact max_le (validRange_le cfg.key) (min_le_left _ _)

theorem direct_fields_clamped_witness :
    ∃ cfg ∈ sensorConfigs, cmdClamped.sensorIndex = cfg.index ∧
      cmdClamped.currentValue = clampChannel cfg.key ((fDirect150 cfg.key).getD 0) ∧
      (validRange cfg.key).1 ≤ cmdClamped.currentValue ∧
      cmdClamped.currentValue ≤ (validRange cfg.key).2 :=
  direct_fields_clamped fDirect150 appleConds noML cmdClamped (by
    have d1 : ("환기" = "") = False := eq_false (by decide)
    norm_num [generateControlCommands, sensorConfigs, channelCommand, channelDecision,
      resolveCurrent, clipDict, initialDict, clampChannel, validRange, controlBand,
      appleConds, mlFactor, mlAnomalyFlag, mlConfidenceVal, mlAnomalyField,
      mlConfidenceField, noML, fDirect150, cmdClamped, d1, round1, roundHalfEven,
      List.filterMap_cons, List.filterMap_nil])

/-- Claim C4: for any channel config with a decrease device (all four rows
have one) and any band with `opt_min ≤ opt_max`, a resolved, clamped current
reading exactly at `opt_max + tolerance` (tolerance = 5% of the optimal
width) yields no command, while a reading at `opt_max + tolerance + 0.01`
yields a command with action decrease. -/
theorem hysteresis_boundary (cfg : ChannelConfig) (spec : Option BandSpec) (ml : MLState)
    (hdev : cfg.deviceDown ≠ "")
    (hband : (controlBand spec).optimalMin ≤ (controlBand spec).optimalMax) :
    channelDecision
        ((controlBand spec).optimalMax +
          ((controlBand spec).optimalMax - (controlBand spec).optimalMin) * (1/20))
        cfg spec ml = none ∧
    ∃ cmd,
      channelDecision
          ((controlBand spec).optimalMax +
            ((controlBand spec).optimalMax - (controlBand spec).optimalMin) * (1/20) + 1/100)
          cfg spec ml = some cmd ∧
      cmd.action = Action.decrease := by
  constructor
  · unfold channelDecision
    rw [if_pos ⟨by linarith, le_refl _⟩]
  · unfold channelDecision
    rw [if_neg (by rintro ⟨_, h2⟩; linarith), if_neg (not_lt.mpr (by linarith)),
      if_pos (by show _ < _; linarith), if_pos hdev]
    exact ⟨_, rfl, rfl⟩

theorem hysteresis_boundary_witness :
    channelDecision
        ((controlBand (appleConds Channel.humidity)).optimalMax +
          ((controlBand (appleConds Channel.humidity)).optimalMax -
            (controlBand (appleConds Channel.humidity)).optimalMin) * (1/20))
        humidityCfg (appleConds Channel.humidity) noML = none ∧
    ∃ cmd,
      channelDecision
          ((controlBand (appleConds Channel.humidity)).optimalMax +
            ((controlBand (appleConds Channel.humidity)).optimalMax -
              (controlBand (appleConds Channel.humidity)).optimalMin) * (1/20) + 1/100)
          humidityCfg (appleConds Channel.humidity) noML = some cmd ∧
      cmd.action = Action.decrease :=
  hysteresis_boundary humidityCfg (appleConds Channel.humidity) noML (by decide)
    (by norm_num [controlBand, appleConds])

/-- Claim C5, counterexample to the claim as stated: the 100% factor needs
the predictor to flag an anomaly, not merely confidence above 0.7.  With the
apple humidity band (optimal 60-80), reading 30 (base magnitude 40) and a
trained predictor reporting NOT anomalous with confidence 0.8, the emitted
magnitude is 36 = 40 * 0.9, not the 40 = 40 * 1.0 the claim requires for
confidence above 0.7. -/
theorem magnitude_confidence_alone_cex :
    (channelDecision 30 humidityCfg (appleConds Channel.humidity) mlConfNoAnomaly).map
      Command.offset = some 36 ∧
    mlConfidenceVal mlConfNoAnomaly = 4/5 ∧
    (7/10 : ℚ) < 4/5 ∧
    (36 : ℚ) ≠ 40 := by
  refine ⟨?_, by norm_num [mlConfidenceVal, mlConfNoAnomaly], by norm_num, by norm_num⟩
  norm_num [channelDecision, controlBand, appleConds, humidityCfg, mlFactor, mlAnomalyFlag,
    mlConfidenceVal, mlConfNoAnomaly, mlAnomalyField, mlConfidenceField, round1,
    roundHalfEven]

/-- Claim C5 (amended): whenever the band/hysteresis check emits a command,
its magnitude is the base magnitude `|target - current|` scaled by exactly
one of three factors and rounded to one decimal: 100% iff the trained
predictor flagged an anomaly AND its confidence exceeds 0.7, 95% iff it
flagged an anomaly with confidence in (0.5, 0.7], and otherwise 90%
(including when no trained predictor is supplied); an anomaly-flagging
confidence of 0.8 versus no predictor yields magnitudes in ratio 1.0 : 0.9
(40 versus 36 on the concrete apple-humidity run). -/
theorem magnitude_ml_factor (cv : ℚ) (cfg : ChannelConfig) (spec : Option BandSpec)
    (ml : MLState) (cmd : Command) (h : channelDecision cv cfg spec ml = some cmd) :
    cmd.offset = round1
      (|((controlBand spec).optimalMin + (controlBand spec).optimalMax) / 2 - cv| *
        (if mlAnomalyFlag ml = true ∧ mlConfidenceVal ml > 7/10 then 1
         else if mlAnomalyFlag ml = true ∧ mlConfidenceVal ml > 1/2 then 19/20
         else 9/10)) ∧
    (channelDecision 30 humidityCfg (appleConds Channel.humidity) mlAnomalous08).map
      Command.offset = some 40 ∧
    (channelDecision 30 humidityCfg (appleConds Channel.humidity) noML).map
      Command.offset = some 36 ∧
    (36 : ℚ) = 40 * (9/10) := by
  refine ⟨?_, ?_, ?_, by norm_num⟩
  · unfold channelDecision at h
    split_ifs at h <;>
      (simp only [Option.some.injEq] at h; subst h; dsimp only; unfold mlFactor;
        first | rfl | rw [abs_sub_comm])
  · norm_num [channelDecision, controlBand, appleConds, humidityCfg, mlFactor,
      mlAnomalyFlag, mlConfidenceVal, mlAnomalous08, mlAnomalyField, mlConfidenceField,
      round1, roundHalfEven]
  · norm_num [channelDecision, controlBand, appleConds, humidityCfg, mlFactor,
      mlAnomalyFlag, mlConfidenceVal, noML, mlAnomalyField, mlConfidenceField,
      round1, roundHalfEven]

theorem magnitude_ml_factor_witness :
    (⟨1, "습도", 30, 70, Action.increase, 36, "가습기", none, none⟩ : Command).offset =
      round1
        (|((controlBand (appleConds Channel.humidity)).optimalMin +
            (controlBand (appleConds Channel.humidity)).optimalMax) / 2 - 30| *
          (if mlAnomalyFlag noML = true ∧ mlConfidenceVal noML > 7/10 then 1
           else if mlAnomalyFlag noML = true ∧ mlConfidenceVal noML > 1/2 then 19/20
           else 9/10)) ∧
    (channelDecision 30 humidityCfg (appleConds Channel.humidity) mlAnomalous08).map
      Command.offset = some 40 ∧
    (channelDecision 30 humidityCfg (appleConds Channel.humidity) noML).map
      Command.offset = some 36 ∧
    (36 : ℚ) = 40 * (9/10) :=
  magnitude_ml_factor 30 humidityCfg (appleConds Channel.humidity) noML
    ⟨1, "습도", 30, 70, Action.increase, 36, "가습기", none, none⟩ (by
      norm_num [channelDecision, controlBand, appleConds, humidityCfg, mlFactor,
        mlAnomalyFlag, mlConfidenceVal, noML, mlAnomalyField, mlConfidenceField,
        round1, roundHalfEven])

/-- Claim C6: for a fixed sensor input and threshold table, any two learned
predictor states (absent, untrained, or any outputs) produce command lists
with identical channel sets, actions, current/target values and devices; the
predictor can change only the magnitude, the unmodelled reason text, and the
ml_anomaly/ml_confidence fields. -/
theorem ml_only_modulates_magnitude (input : SensorInput) (conds : Channel → Option BandSpec)
    (ml1 ml2 : MLState) :
    (generateControlCommands input conds ml1).map shapeOf =
      (generateControlCommands input conds ml2).map shapeOf := by
  unfold generateControlCommands
  rw [List.map_filterMap, List.map_filterMap]
  exact List.filterMap_congr fun cfg _ => channelCommand_shape _ _ _ _ _ _

/-- Claim C10: the two value-extraction passes of the sensors-list form
disagree on an entry carrying both fields with `rawValue = 0`: the
sensors_dict pass (Python `or`) falls back to the `value` field, while the
command-loop pass (`get` with default) uses the raw 0.0; consequently, for
the entry `{name: "습도", rawValue: 0, value: 60}` under the apple bands the
emitted humidity command carries current value 0.0, not 60. -/
theorem raw_zero_precedence (name : String) (v : ℚ) (hv : 0 < v) :
    rawOrValue ⟨name, some 0, some v⟩ = v ∧
    rawKeyOrValue ⟨name, some 0, some v⟩ = 0 ∧
    (generateControlCommands (SensorInput.sensorsList [⟨"습도", some 0, some 60⟩]) appleConds
      noML).map (fun c => (c.sensorIndex, c.currentValue)) =
      [(1, 0), (2, 0), (3, 0), (4, 0)] := by
  have hcn : classifyName (lowerStr "습도") = some Channel.humidity := by decide
  have hp1 : pass2Match Channel.humidity (lowerStr "습도") = true := by decide
  have hp2 : pass2Match Channel.temperature (lowerStr "습도") = false := by decide
  have hp3 : pass2Match Channel.light (lowerStr "습도") = false := by decide
  have hp4 : pass2Match Channel.soilMoisture (lowerStr "습도") = false := by decide
  have eT : (Channel.temperature = Channel.humidity) = False := eq_false (by decide)
  have eL : (Channel.light = Channel.humidity) = False := eq_false (by decide)
  have eS : (Channel.soilMoisture = Channel.humidity) = False := eq_false (by decide)
  have d1 : ("환기" = "") = False := eq_false (by decide)
  have d2 : ("냉방" = "") = False := eq_false (by decide)
  have d3 : ("LED 조명 끄기" = "") = False := eq_false (by decide)
  have d4 : ("배수" = "") = False := eq_false (by decide)
  refine ⟨by norm_num [rawOrValue], by norm_num [rawKeyOrValue], ?_⟩
  norm_num [generateControlCommands, sensorConfigs, channelCommand, channelDecision,
    resolveCurrent, clipDict, initialDict, buildSensorsDict, rawOrValue, rawKeyOrValue,
    clampChannel, validRange, controlBand, appleConds, mlFactor, mlAnomalyFlag,
    mlConfidenceVal, mlAnomalyField, mlConfidenceField, noML, hcn, hp1, hp2, hp3, hp4,
    eT, eL, eS, d1, d2, d3, d4, List.filterMap_cons, List.filterMap_nil, List.find?,
    List.foldl]

theorem raw_zero_precedence_witness :
    rawOrValue ⟨"습도", some 0, some 60⟩ = 60 ∧
    rawKeyOrValue ⟨"습도", some 0, some 60⟩ = 0 ∧
    (generateControlCommands (SensorInput.sensorsList [⟨"습도", some 0, some 60⟩]) appleConds
      noML).map (fun c => (c.sensorIndex, c.currentValue)) =
      [(1, 0), (2, 0), (3, 0), (4, 0)] :=
  raw_zero_precedence "습도" 60 (by norm_num)

end FarmUi
